import Mathlib

/-!
Verification development for the dfs-aip-docker-update repository.

The repository consists of a React/TypeScript frontend (api client,
App/UpdateSection/RunHistoryTable/RunHistoryModal/DocumentsSection
components), shell scripts driving the external `aip.py` tool
(`update_aip.sh` and the multi-profile cron variant), and a FastAPI
backend that is not part of the visible source tree.  Definitions below
are shallow embeddings of the visible source; pieces that exist only in
the missing backend are modelled from the specification and marked as
such in their doc comments.
-/

namespace DfsAip

/-- Event status as declared in the frontend api client
(`UpdateProgress.status : "info" | "warning" | "error" | "success"`). -/
inductive EventStatus
  | info
  | warning
  | error
  | success
deriving DecidableEq, Repr

/-- A progress event as declared in the frontend api client
(`UpdateProgress`): timestamp, profile name ("" for system-level events),
stage label, free-text message and status. -/
structure StageEvent where
  timestamp : String
  profile : String
  stage : String
  message : String
  status : EventStatus
deriving DecidableEq, Repr

/-- A profile as declared in the frontend api client (`Profile`). -/
structure Profile where
  name : String
  flight_rule : String
  filters : List String
  enabled : Bool
deriving DecidableEq, Repr

/-- A document as declared in the frontend api client (`Document`). -/
structure Document where
  name : String
  profile : String
  airac_date : String
  path : String
  size : Nat
  modified : String
  is_ocr : Bool
deriving DecidableEq, Repr

/-! ## Embedding of the multi-profile update script (src/unnamed/part_005)

The script iterates over `.profiles[i]` of `/app/config.json`, reading
only the `name`, `flight_rule` and `filters` fields of each entry, and
for each profile compares the fetched current AIRAC date with the
per-profile cache file `last_airac_date_<name>.txt`, generating a PDF
and an OCR PDF when the date differs or the config-file md5 hash
changed, truncating the cache file via `failed` on a tool failure and
continuing with the next profile. -/

/-- One entry of the script's `config.json`.  The script reads only
`name`, `flight_rule` and `filters` (via `jq .profiles[i].name` etc.);
an `enabled` field present in the file is never consulted by the
script. -/
structure ScriptProfile where
  name : String
  flight_rule : String
  filters : List String
  enabled : Bool
deriving DecidableEq, Repr

/-- Observable filesystem effects of one script run: PDF/OCR output
files written, the per-profile last-AIRAC cache file written or
truncated, or a profile skipped as already processed. -/
inductive ScriptAction
  | pdfWritten (profile : String) (file : String)
  | ocrWritten (profile : String) (file : String)
  | airacSaved (profile : String) (date : String)
  | airacCleared (profile : String)
  | skipped (profile : String)
deriving DecidableEq, Repr

/-- The profile a script action belongs to. -/
def actionProfile : ScriptAction → String
  | .pdfWritten n _ => n
  | .ocrWritten n _ => n
  | .airacSaved n _ => n
  | .airacCleared n => n
  | .skipped n => n

/-- Results of the external tool invocations for one profile:
the current AIRAC date printed by `aip.py toc list` and the exit
statuses of the `aip.py pdf` and `ocrmypdf` invocations. -/
structure ToolEnv where
  currentAirac : String
  pdfOk : Bool
  ocrOk : Bool

/-- `OUTPUT_FILE="/app/output/${PROFILE_NAME}-${CURRENT_AIRAC_DATE}.pdf"`. -/
def pdfOutputFile (name airac : String) : String :=
  "/app/output/" ++ name ++ "-" ++ airac ++ ".pdf"

/-- `OCR_OUTPUT_FILE="/app/output/${PROFILE_NAME}-${CURRENT_AIRAC_DATE}_ocr.pdf"`. -/
def ocrOutputFile (name airac : String) : String :=
  "/app/output/" ++ name ++ "-" ++ airac ++ "_ocr.pdf"

/-- One iteration of the script's profile loop.  Given the
config-changed flag, the profile entry, the content of the profile's
last-AIRAC cache file and the tool results, it returns the filesystem
actions performed and the new content of the cache file.  Mirrors
src/unnamed/part_005 lines 92-151: update when the current AIRAC date
differs from the stored one or the config hash changed; inside the
update branch generate the PDF and then the OCR PDF when the filter
list is non-empty, calling `failed` (which truncates the cache file)
and `continue` on either failure; store the current AIRAC date on
success or when no sections are configured; otherwise skip. -/
def processProfile (configChanged : Bool) (p : ScriptProfile) (lastAirac : String)
    (env : ToolEnv) : List ScriptAction × String :=
  if env.currentAirac ≠ lastAirac ∨ configChanged = true then
    if p.filters ≠ [] then
      if env.pdfOk = false then
        ([.airacCleared p.name], "")
      else if env.ocrOk = false then
        ([.pdfWritten p.name (pdfOutputFile p.name env.currentAirac),
          .airacCleared p.name], "")
      else
        ([.pdfWritten p.name (pdfOutputFile p.name env.currentAirac),
          .ocrWritten p.name (ocrOutputFile p.name env.currentAirac),
          .airacSaved p.name env.currentAirac], env.currentAirac)
    else
      ([.airacSaved p.name env.currentAirac], env.currentAirac)
  else
    ([.skipped p.name], lastAirac)

/-- The script's profile loop: processes the profiles in configuration
order, threading the per-profile last-AIRAC cache (a map from profile
name to file content; `touch` makes a missing file read as ""). -/
def processProfiles (configChanged : Bool) (envs : String → ToolEnv) :
    List ScriptProfile → (String → String) → List ScriptAction × (String → String)
  | [], cache => ([], cache)
  | p :: rest, cache =>
    let step := processProfile configChanged p (cache p.name) (envs p.name)
    let tail := processProfiles configChanged envs rest
      (Function.update cache p.name step.2)
    (step.1 ++ tail.1, tail.2)

/-- Persistent state of the script between runs: the per-profile
last-AIRAC cache files and the saved config hash ("" when
`config_hash.txt` does not exist yet). -/
structure ScriptState where
  cache : String → String
  savedConfigHash : String

/-- One full run of the multi-profile update script: compute
`CONFIG_CHANGED` from the md5 hash of the config file versus the saved
hash, run the profile loop, and finally save the current config hash
unconditionally (src/unnamed/part_005 lines 158-160 run after the loop
regardless of per-profile failures, which only `continue`). -/
def scriptRun (cfg : List ScriptProfile) (currentHash : String)
    (envs : String → ToolEnv) (st : ScriptState) :
    List ScriptAction × ScriptState :=
  let changed : Bool := decide (currentHash ≠ st.savedConfigHash)
  let r := processProfiles changed envs cfg st.cache
  (r.1, ⟨r.2, currentHash⟩)

/-- Whether the script wrote a (non-OCR) PDF output for profile `n`. -/
def hasPdfWritten (out : List ScriptAction) (n : String) : Bool :=
  out.any (fun a => match a with
    | .pdfWritten m _ => m == n
    | _ => false)

/-- Whether the script wrote an OCR PDF output for profile `n`. -/
def hasOcrWritten (out : List ScriptAction) (n : String) : Bool :=
  out.any (fun a => match a with
    | .ocrWritten m _ => m == n
    | _ => false)

/-! ## Run orchestrator

The FastAPI backend (`main.py`) that implements the run lock, the
per-profile stage loop, the progress broadcaster and the run history
store is not part of the visible source tree; only its HTTP callers
(the frontend api client and components) and the shell-script variants
are.  The orchestrator below is therefore modelled from the spec. -/

/-- Modelled from the spec: the missing backend's stage sequence for
one profile, `init → toc_fetch → pdf_gen → ocr → complete` (spec §4.1;
the labels also appear verbatim in the frontend's `STAGE_LABELS`). -/
def stageOrder : List String := ["init", "toc_fetch", "pdf_gen", "ocr", "complete"]

/-- Outcome of running the external tool for one profile: either every
stage succeeded, or some stage signalled failure with a message. -/
inductive ProfileOutcome
  | ok
  | failedAt (stage : String) (msg : String)
deriving DecidableEq, Repr

/-- A failure, if any, happens at one of the orchestrator's stages. -/
def outcomeWF : ProfileOutcome → Prop
  | .ok => True
  | .failedAt fs _ => fs ∈ stageOrder

instance : DecidablePred outcomeWF := by
  intro r
  cases r with
  | ok => exact .isTrue trivial
  | failedAt fs msg => exact inferInstanceAs (Decidable (fs ∈ stageOrder))

/-- Modelled from the spec: the missing backend's StageEvent for a
successfully completed stage; the final `complete` stage carries
status `success`, earlier stages are progress information. -/
def stageEvent (name stage : String) : StageEvent :=
  if stage = "complete" then ⟨"", name, stage, "Profile " ++ name ++ " complete", .success⟩
  else ⟨"", name, stage, "stage " ++ stage, .info⟩

/-- Modelled from the spec: the missing backend's per-profile stage
loop over a list of stages.  After each successful stage a StageEvent
is emitted; when a stage signals failure an `error` StageEvent carrying
the failure message is emitted and no later stage of that profile is
executed (spec §4.1). -/
def stagesEvents (name : String) : List String → ProfileOutcome → List StageEvent
  | [], _ => []
  | s :: rest, .ok => stageEvent name s :: stagesEvents name rest .ok
  | s :: rest, .failedAt fs msg =>
    if s = fs then [⟨"", name, s, msg, .error⟩]
    else stageEvent name s :: stagesEvents name rest (.failedAt fs msg)

/-- The log of StageEvents one profile contributes to a run. -/
def profileEvents (name : String) (r : ProfileOutcome) : List StageEvent :=
  stagesEvents name stageOrder r

/-- Modelled from the spec: events emitted by the missing backend for a
run over the selected profiles, in configuration order; a failing
profile is not fatal, the loop proceeds to the next profile. -/
def runProfilesEvents : List (String × ProfileOutcome) → List StageEvent
  | [] => []
  | pr :: rest => profileEvents pr.1 pr.2 ++ runProfilesEvents rest

/-- Modelled from the spec: the single terminal system StageEvent
(profile = "") whose message signals completion; the frontend
recognises it by `stage === "system"` and
`message.includes("finished")` and one variant compares the message to
the literal `"Update process finished"`. -/
def finishedEvent : StageEvent := ⟨"", "", "system", "Update process finished", .info⟩

/-- Modelled from the spec: the full event stream of one run — the
per-profile events followed by exactly one terminal system event. -/
def runEvents (ps : List (String × ProfileOutcome)) : List StageEvent :=
  runProfilesEvents ps ++ [finishedEvent]

/-- Overall status of a finalized run (`RunSummary.status` in the
frontend api client). -/
inductive RunStatus
  | success
  | error
deriving DecidableEq, Repr

/-- Whether a profile's outcome is a success. -/
def outcomeOk : ProfileOutcome → Bool
  | .ok => true
  | .failedAt _ _ => false

/-- Modelled from the spec: overall RunRecord status is `success` only
if every profile succeeded, otherwise `error` (spec §4.1). -/
def runStatus (ps : List (String × ProfileOutcome)) : RunStatus :=
  if ps.all (fun pr => outcomeOk pr.2) then .success else .error

/-- A finalized run record (`RunSummary`/`RunDetail` in the frontend
api client): id, timestamp, included profile names, overall status and
per-profile ordered logs. -/
structure RunRecord where
  id : String
  timestamp : String
  profiles : List String
  status : RunStatus
  logs : List (String × List StageEvent)

/-- Modelled from the spec: the RunRecord persisted by the missing
backend when a run over the given profiles is finalized. -/
def finalizeRun (id ts : String) (ps : List (String × ProfileOutcome)) : RunRecord :=
  ⟨id, ts, ps.map Prod.fst, runStatus ps,
    ps.map (fun pr => (pr.1, profileEvents pr.1 pr.2))⟩

/-- The per-profile log stored in a run record, as the frontend reads
`RunDetail.logs[profileName]`. -/
def recordLog (rec : RunRecord) (n : String) : List StageEvent :=
  (rec.logs.lookup n).getD []

/-! ## Run lock and trigger endpoint (modelled from the spec) -/

/-- Modelled from the spec: the missing backend's process-wide run
state — the ids of runs currently in progress (the run lock is held
iff this list is non-empty). -/
structure OrchState where
  active : List String

/-- An HTTP response as the frontend sees it: status code and, when the
body is JSON of the shape `{status: ...}`, that status value. -/
structure HttpResp where
  code : Nat
  body : Option String
deriving DecidableEq, Repr

/-- Modelled from the spec: `POST /update/run` in the missing backend.
If no run lock is held, acquire it and answer `200 {status: started}`;
if it is already held, fail with AlreadyRunning surfaced as `409`,
leaving the active run untouched (spec §4.1, §6). -/
def updateRunEndpoint (runId : String) (st : OrchState) : HttpResp × OrchState :=
  if st.active = [] then (⟨200, some "started"⟩, ⟨[runId]⟩)
  else (⟨409, none⟩, st)

/-- Modelled from the spec: releasing the run lock when a run ends. -/
def finishRun (_st : OrchState) : OrchState := ⟨[]⟩

/-- An operation arriving at the orchestrator: a trigger request or the
end of the active run. -/
inductive OrchOp
  | trigger (runId : String)
  | finish

/-- Modelled from the spec: state transition for one operation. -/
def applyOp (st : OrchState) : OrchOp → OrchState
  | .trigger rid => (updateRunEndpoint rid st).2
  | .finish => finishRun st

/-- Modelled from the spec: the orchestrator state after a sequence of
operations starting with no run in progress. -/
def orchExec (ops : List OrchOp) : OrchState := ops.foldl applyOp ⟨[]⟩

/-- Result of the frontend's `api.triggerUpdate`. -/
inductive TriggerResult
  | started
  | already_running
deriving DecidableEq, Repr

/-- `fetch`'s `res.ok`: status code in the 200-299 range. -/
def resOk (code : Nat) : Bool := decide (200 ≤ code) && decide (code < 300)

/-- The frontend's `api.triggerUpdate` response handling
(RunHistoryTable.tsx api client, lines 339-350): on `res.ok` parse the
JSON body and return its status; on `409` return
`{status: "already_running"}` without throwing; on any other failure
throw. -/
def triggerUpdateClient (res : HttpResp) : Except String TriggerResult :=
  if resOk res.code then
    match res.body with
    | some "started" => .ok .started
    | some "already_running" => .ok .already_running
    | _ => .error "invalid response body"
  else if res.code = 409 then .ok .already_running
  else .error "Failed to trigger update"

/-! ## Profile selection and profile store (modelled from the spec) -/

/-- Modelled from the spec: the missing backend's target-profile
selection — the single named profile, or all enabled profiles if none
named (spec §4.1; a disabled profile may still be targeted by an
explicit single-profile trigger, spec §3). -/
def selectProfiles (profiles : List Profile) (target : Option String) : List Profile :=
  match target with
  | none => profiles.filter (fun p => p.enabled)
  | some nm => profiles.filter (fun p => p.name == nm)

/-- Errors of the missing backend's profile store (spec §4.4, §7). -/
inductive StoreError
  | DuplicateName
  | NotFound
deriving DecidableEq, Repr

/-- Modelled from the spec: the missing backend's profile create —
`name` is the unique key; create fails with `DuplicateName` if a
profile with that name exists, leaving the store unchanged (spec §4.4). -/
def createProfile (store : List Profile) (p : Profile) :
    Option StoreError × List Profile :=
  if store.any (fun q => q.name == p.name) then (some .DuplicateName, store)
  else (none, store ++ [p])

/-! ## Frontend progress accumulation (App.tsx / UpdateSection.tsx)

The stream callback keeps a `Record<string, ProfileStatus>`; for a
profile event it appends the event to the end of that profile's
`messages`, and a system event (profile = "") only toggles UI flags. -/

/-- One entry of the frontend's per-profile `messages` array. -/
structure ClientMsg where
  stage : String
  message : String
  status : EventStatus
deriving DecidableEq, Repr

/-- The frontend's `ProfileStatus` record. -/
structure ProfileStatusUI where
  name : String
  stage : String
  status : String
  lastMessage : String
  messages : List ClientMsg
deriving Repr

/-- The frontend's status mapping
`progress.status === "error" ? "error" : progress.status === "success" ? "success" : "running"`. -/
def uiStatus (s : EventStatus) : String :=
  match s with
  | .error => "error"
  | .success => "success"
  | _ => "running"

/-- Projection of a stream event to a stored `messages` entry
(`{ stage: progress.stage, message: progress.message, status: progress.status }`). -/
def toClientMsg (e : StageEvent) : ClientMsg := ⟨e.stage, e.message, e.status⟩

/-- The default `ProfileStatus` used when a profile is seen for the
first time. -/
def emptyProfileStatus (n : String) : ProfileStatusUI := ⟨n, "", "pending", "", []⟩

/-- One invocation of the stream callback of `AppContent.handleUpdate`
(App.tsx lines 447-492): a system event (profile = "") leaves
`profilesStatus` unchanged; a profile event updates that profile's
entry, appending the message to the end of `messages`. -/
def applyProgress (st : String → Option ProfileStatusUI) (e : StageEvent) :
    String → Option ProfileStatusUI :=
  if e.profile = "" then st
  else fun n =>
    if n = e.profile then
      let existing := (st e.profile).getD (emptyProfileStatus e.profile)
      some { existing with
        stage := e.stage
        status := uiStatus e.status
        lastMessage := e.message
        messages := existing.messages ++ [toClientMsg e] }
    else st n

/-- The accumulated `profilesStatus` after a list of stream events. -/
def applyProgressList (st : String → Option ProfileStatusUI)
    (evs : List StageEvent) : String → Option ProfileStatusUI :=
  evs.foldl applyProgress st

/-- The initial `profilesStatus` (`setProfilesStatus({})`). -/
def emptyClientState : String → Option ProfileStatusUI := fun _ => none

/-- The stored `messages` list of one profile in the client state. -/
def clientLog (st : String → Option ProfileStatusUI) (n : String) : List ClientMsg :=
  ((st n).map (fun s => s.messages)).getD []

/-- The log list as rendered by RunHistoryModal.tsx / UpdateSection.tsx:
`[...messages].reverse()` — a reversed copy made for display only. -/
def displayLog (msgs : List ClientMsg) : List ClientMsg := msgs.reverse

/-- `message.includes(pat)` of the frontend, as substring containment
on the underlying character lists. -/
def stringIncludes (s pat : String) : Bool :=
  decide (pat.toList <:+: s.toList)

/-- The system-completion test of `UpdateSection.handleClick`
(UpdateSection.tsx lines 65-77): `progress.profile === "" &&
progress.stage === "system" && progress.message.includes("finished")`;
on it the subscriber stops consuming and closes the stream. -/
def isTerminalSystemEvent (e : StageEvent) : Bool :=
  e.profile == "" && e.stage == "system" && stringIncludes e.message "finished"

/-! ## Documents view (DocumentsSection, src/unnamed/part_003) -/

/-- `filteredDocuments = documents.filter((d) => !d.is_ocr)`
(src/unnamed/part_003 lines 72-75): the table rows. -/
def filteredDocuments (docs : List Document) : List Document :=
  docs.filter (fun d => !d.is_ocr)

/-- The actions-column lookup (src/unnamed/part_003 lines 108-110):
`documents.find((doc) => doc.profile === d.profile &&
doc.airac_date === d.airac_date && doc.is_ocr)`. -/
def ocrDoc (docs : List Document) (d : Document) : Option Document :=
  docs.find? (fun doc =>
    doc.profile == d.profile && doc.airac_date == d.airac_date && doc.is_ocr)

/-- The OCR button is disabled exactly when no matching OCR document
exists (`disabled={!ocrDoc}`). -/
def ocrButtonDisabled (docs : List Document) (d : Document) : Bool :=
  (ocrDoc docs d).isNone

/-- `api.getDocumentUrl(path)` = `` `${API_BASE}/documents/${path}` ``. -/
def getDocumentUrl (path : String) : String := "/api/documents/" ++ path

/-- The href of the row's OCR download link, present only when a
matching OCR document exists. -/
def ocrHref (docs : List Document) (d : Document) : Option String :=
  (ocrDoc docs d).map (fun doc => getDocumentUrl doc.path)

/-! ## Helper lemmas -/

lemma orch_foldl_active_le_one (ops : List OrchOp) :
    ∀ st : OrchState, st.active.length ≤ 1 →
      (ops.foldl applyOp st).active.length ≤ 1 := by
  induction ops with
  | nil => intro st h; exact h
  | cons op rest ih =>
    intro st h
    rw [List.foldl_cons]
    apply ih
    cases op with
    | trigger rid =>
      simp only [applyOp, updateRunEndpoint]
      split
      · simp
      · exact h
    | finish => simp [applyOp, finishRun]

lemma stageEvent_profile (n s : String) : (stageEvent n s).profile = n := by
  unfold stageEvent; split <;> rfl

lemma stageEvent_stage (n s : String) : (stageEvent n s).stage = s := by
  unfold stageEvent; split <;> rfl

lemma stagesEvents_profile (n : String) :
    ∀ (stages : List String) (r : ProfileOutcome) (e : StageEvent),
      e ∈ stagesEvents n stages r → e.profile = n := by
  intro stages
  induction stages with
  | nil => intro r e he; simp [stagesEvents] at he
  | cons s rest ih =>
    intro r e he
    cases r with
    | ok =>
      rcases List.mem_cons.mp he with h | h
      · rw [h]; exact stageEvent_profile n s
      · exact ih .ok e h
    | failedAt fs msg =>
      by_cases hs : s = fs
      · simp only [stagesEvents, if_pos hs, List.mem_singleton] at he
        rw [he]
      · simp only [stagesEvents, if_neg hs] at he
        rcases List.mem_cons.mp he with h | h
        · rw [h]; exact stageEvent_profile n s
        · exact ih _ e h

lemma profileEvents_getLast_ok (n : String) :
    (profileEvents n .ok).getLast? = some (stageEvent n "complete") := rfl

lemma stagesEvents_failed_concat (n msg : String) :
    ∀ (stages : List String) (fs : String), fs ∈ stages →
      ∃ pre, stagesEvents n stages (.failedAt fs msg) =
        pre ++ [⟨"", n, fs, msg, .error⟩] := by
  intro stages
  induction stages with
  | nil => intro fs h; exact absurd h (List.not_mem_nil fs)
  | cons s rest ih =>
    intro fs h
    by_cases hs : s = fs
    · exact ⟨[], by simp [stagesEvents, hs]⟩
    · have hrest : fs ∈ rest := by
        rcases List.mem_cons.mp h with h1 | h1
        · exact absurd h1.symm hs
        · exact h1
      obtain ⟨pre, hpre⟩ := ih fs hrest
      exact ⟨stageEvent n s :: pre, by simp [stagesEvents, hs, hpre]⟩

lemma profileEvents_getLast_failed (n fs msg : String) (h : fs ∈ stageOrder) :
    (profileEvents n (.failedAt fs msg)).getLast? =
      some ⟨"", n, fs, msg, .error⟩ := by
  obtain ⟨pre, hpre⟩ := stagesEvents_failed_concat n msg stageOrder fs h
  rw [profileEvents, hpre, List.getLast?_concat]

lemma profileEvents_last_success_iff (n : String) (r : ProfileOutcome)
    (h : outcomeWF r) :
    ((profileEvents n r).getLast?.map StageEvent.status = some .success) ↔
      outcomeOk r = true := by
  cases r with
  | ok => simp [profileEvents_getLast_ok, stageEvent, outcomeOk]
  | failedAt fs msg =>
    rw [profileEvents_getLast_failed n fs msg h]
    simp [outcomeOk]

lemma runStatus_success_iff_all (ps : List (String × ProfileOutcome)) :
    runStatus ps = .success ↔ ∀ pr ∈ ps, outcomeOk pr.2 = true := by
  unfold runStatus
  split
  next hall =>
    rw [List.all_eq_true] at hall
    constructor
    · intro _ pr hpr
      exact hall pr hpr
    · intro _
      rfl
  next hall =>
    rw [List.all_eq_true] at hall
    constructor
    · intro hc; cases hc
    · intro hf; exact absurd hf hall

/-! ## C1 and C2 -/

/-- C1: at most one run is ever in progress over any sequence of
trigger calls; a trigger while no run lock is held answers
`200 {status: started}`, a trigger while the lock is held answers `409`
(AlreadyRunning) leaving the active run untouched, and the client's
`triggerUpdate` maps a 409 response to `{status: "already_running"}`
without throwing. -/
theorem trigger_mutual_exclusion (st : OrchState) (runId : String) :
    (st.active = [] →
      updateRunEndpoint runId st = (⟨200, some "started"⟩, ⟨[runId]⟩) ∧
      triggerUpdateClient (updateRunEndpoint runId st).1 = .ok .started) ∧
    (st.active ≠ [] →
      (updateRunEndpoint runId st).1.code = 409 ∧
      (updateRunEndpoint runId st).2 = st ∧
      triggerUpdateClient (updateRunEndpoint runId st).1 = .ok .already_running) ∧
    (∀ ops : List OrchOp, (orchExec ops).active.length ≤ 1) := by
  refine ⟨?_, ?_, ?_⟩
  · intro h
    simp [updateRunEndpoint, h, triggerUpdateClient, resOk]
  · intro h
    simp [updateRunEndpoint, h, triggerUpdateClient, resOk]
  · intro ops
    exact orch_foldl_active_le_one ops ⟨[]⟩ (by simp)

/-- Witness for C1 at concrete states: a trigger against a held lock
answers 409 with the state untouched and the client reports
`already_running`; a trigger against a free lock is accepted. -/
theorem trigger_mutual_exclusion_witness :
    ((updateRunEndpoint "r2" ⟨["r1"]⟩).1.code = 409 ∧
      (updateRunEndpoint "r2" ⟨["r1"]⟩).2 = ⟨["r1"]⟩ ∧
      triggerUpdateClient (updateRunEndpoint "r2" ⟨["r1"]⟩).1 =
        .ok .already_running) ∧
    triggerUpdateClient (updateRunEndpoint "r1" ⟨[]⟩).1 = .ok .started :=
  ⟨(trigger_mutual_exclusion ⟨["r1"]⟩ "r2").2.1 (by simp),
    ((trigger_mutual_exclusion ⟨[]⟩ "r1").1 rfl).2⟩

/-- C2: a finalized run's overall status is `success` iff every
included profile's log ends in a `success` StageEvent, else `error`. -/
theorem run_status_success_iff (ps : List (String × ProfileOutcome))
    (h : ∀ pr ∈ ps, outcomeWF pr.2) :
    runStatus ps = .success ↔
      ∀ pr ∈ ps, (profileEvents pr.1 pr.2).getLast?.map StageEvent.status =
        some .success := by
  rw [runStatus_success_iff_all]
  constructor
  · intro ha pr hpr
    exact (profileEvents_last_success_iff pr.1 pr.2 (h pr hpr)).mpr (ha pr hpr)
  · intro ha pr hpr
    exact (profileEvents_last_success_iff pr.1 pr.2 (h pr hpr)).mp (ha pr hpr)

/-- Witness for C2 on a concrete run with one succeeding and one
failing profile. -/
theorem run_status_success_iff_witness :
    runStatus [("A", .ok), ("B", .failedAt "pdf_gen" "boom")] = .success ↔
      ∀ pr ∈ [("A", ProfileOutcome.ok), ("B", .failedAt "pdf_gen" "boom")],
        (profileEvents pr.1 pr.2).getLast?.map StageEvent.status =
          some .success :=
  run_status_success_iff [("A", .ok), ("B", .failedAt "pdf_gen" "boom")]
    (by decide)

/-! ## C3 and C4 -/

lemma profileEvents_pdf_gen_failed (n msg : String) :
    profileEvents n (.failedAt "pdf_gen" msg) =
      [stageEvent n "init", stageEvent n "toc_fetch",
        ⟨"", n, "pdf_gen", msg, .error⟩] := rfl

lemma runProfilesEvents_append (l1 l2 : List (String × ProfileOutcome)) :
    runProfilesEvents (l1 ++ l2) =
      runProfilesEvents l1 ++ runProfilesEvents l2 := by
  induction l1 with
  | nil => simp [runProfilesEvents]
  | cons pr rest ih => simp [runProfilesEvents, ih]

lemma filter_profileEvents_ne (m n : String) (r : ProfileOutcome) (h : m ≠ n) :
    (profileEvents m r).filter (fun e => e.profile == n) = [] := by
  rw [List.filter_eq_nil_iff]
  intro e he
  have hp := stagesEvents_profile m stageOrder r e he
  simp [hp, h]

lemma filter_profileEvents_self (n : String) (r : ProfileOutcome) :
    (profileEvents n r).filter (fun e => e.profile == n) = profileEvents n r := by
  rw [List.filter_eq_self]
  intro e he
  simp [stagesEvents_profile n stageOrder r e he]

lemma filter_runProfilesEvents_not_mem (n : String) :
    ∀ ps : List (String × ProfileOutcome), (∀ pr ∈ ps, pr.1 ≠ n) →
      (runProfilesEvents ps).filter (fun e => e.profile == n) = [] := by
  intro ps
  induction ps with
  | nil => intro _; rfl
  | cons pr rest ih =>
    intro h
    rw [runProfilesEvents, List.filter_append]
    rw [filter_profileEvents_ne pr.1 n pr.2 (h pr (List.mem_cons_self _ _))]
    rw [ih (fun q hq => h q (List.mem_cons_of_mem _ hq))]
    rfl

/-- C3: when a stage of a profile fails, an `error` StageEvent carrying
the failure message is emitted as the profile's last event, no later
stage of that profile is executed or logged (a `pdf_gen` failure yields
no `ocr`/`complete` events), the run proceeds to the remaining profiles
and still terminates normally; in the multi-profile update script a PDF
failure likewise only clears the profile's state and the loop continues
with the remaining profiles. -/
theorem profile_failure_isolated (n msg : String)
    (ps1 ps2 : List (String × ProfileOutcome)) :
    (⟨"", n, "pdf_gen", msg, .error⟩ : StageEvent) ∈
        profileEvents n (.failedAt "pdf_gen" msg) ∧
    (profileEvents n (.failedAt "pdf_gen" msg)).getLast? =
      some ⟨"", n, "pdf_gen", msg, .error⟩ ∧
    (∀ e ∈ profileEvents n (.failedAt "pdf_gen" msg),
      e.stage ≠ "ocr" ∧ e.stage ≠ "complete") ∧
    runProfilesEvents (ps1 ++ (n, .failedAt "pdf_gen" msg) :: ps2) =
      runProfilesEvents ps1 ++ profileEvents n (.failedAt "pdf_gen" msg) ++
        runProfilesEvents ps2 ∧
    (runEvents (ps1 ++ (n, .failedAt "pdf_gen" msg) :: ps2)).getLast? =
      some finishedEvent ∧
    (∀ (cc : Bool) (p : ScriptProfile) (rest : List ScriptProfile)
        (envs : String → ToolEnv) (cache : String → String),
      (envs p.name).pdfOk = false →
      ((envs p.name).currentAirac ≠ cache p.name ∨ cc = true) →
      p.filters ≠ [] →
        (processProfiles cc envs (p :: rest) cache).1 =
          .airacCleared p.name ::
            (processProfiles cc envs rest
              (Function.update cache p.name "")).1) := by
  refine ⟨?_, ?_, ?_, ?_, ?_, ?_⟩
  · rw [profileEvents_pdf_gen_failed]
    simp
  · exact profileEvents_getLast_failed n "pdf_gen" msg (by decide)
  · rw [profileEvents_pdf_gen_failed]
    intro e he
    simp only [List.mem_cons, List.not_mem_nil, or_false] at he
    rcases he with h | h | h <;> rw [h]
    · rw [stageEvent_stage]; exact ⟨by decide, by decide⟩
    · rw [stageEvent_stage]; exact ⟨by decide, by decide⟩
    · exact ⟨by simp, by simp⟩
  · rw [runProfilesEvents_append, runProfilesEvents, List.append_assoc]
  · rw [runEvents, List.getLast?_concat]
  · intro cc p rest envs cache hpdf hcond hfil
    rw [processProfiles]
    rw [processProfile, if_pos hcond, if_pos hfil, if_pos hpdf]
    rfl

/-- Witness for C3: the stage part at a concrete profile and message,
and the script part at a concrete one-profile configuration whose PDF
generation fails. -/
theorem profile_failure_isolated_witness :
    (∀ e ∈ profileEvents "A" (.failedAt "pdf_gen" "tool exit 1"),
      e.stage ≠ "ocr" ∧ e.stage ≠ "complete") ∧
    (processProfiles false (fun _ => ⟨"2025-01-01", false, true⟩)
        [⟨"P", "vfr", ["AD"], true⟩] (fun _ => "")).1 =
      .airacCleared "P" ::
        (processProfiles false (fun _ => ⟨"2025-01-01", false, true⟩) []
          (Function.update (fun _ => "") "P" "")).1 :=
  ⟨(profile_failure_isolated "A" "tool exit 1" [] []).2.2.1,
    (profile_failure_isolated "A" "tool exit 1" [] []).2.2.2.2.2 false
      ⟨"P", "vfr", ["AD"], true⟩ [] (fun _ => ⟨"2025-01-01", false, true⟩)
      (fun _ => "") rfl (by simp) (by simp)⟩

/-- C4: system-level StageEvents (profile = "") in a run's stream are
exactly the single terminal completion event, emitted at the very end
of the run, and the frontend subscriber's completion test recognises
it. -/
theorem system_events_terminal (ps : List (String × ProfileOutcome))
    (h : ∀ pr ∈ ps, pr.1 ≠ "") :
    (runEvents ps).filter (fun e => e.profile == "") = [finishedEvent] ∧
    (runEvents ps).getLast? = some finishedEvent ∧
    isTerminalSystemEvent finishedEvent = true := by
  refine ⟨?_, ?_, ?_⟩
  · rw [runEvents, List.filter_append, filter_runProfilesEvents_not_mem "" ps h]
    rfl
  · rw [runEvents, List.getLast?_concat]
  · decide

/-- Witness for C4 on a concrete two-profile run. -/
theorem system_events_terminal_witness :
    (runEvents [("A", .ok), ("B", .failedAt "ocr" "ocrmypdf exit 2")]).filter
        (fun e => e.profile == "") = [finishedEvent] ∧
    (runEvents [("A", .ok), ("B", .failedAt "ocr" "ocrmypdf exit 2")]).getLast? =
      some finishedEvent ∧
    isTerminalSystemEvent finishedEvent = true :=
  system_events_terminal [("A", .ok), ("B", .failedAt "ocr" "ocrmypdf exit 2")]
    (by decide)

/-! ## C5 -/

lemma processProfile_actions_profile (cc : Bool) (p : ScriptProfile)
    (last : String) (env : ToolEnv) :
    ∀ a ∈ (processProfile cc p last env).1, actionProfile a = p.name := by
  intro a ha
  unfold processProfile at ha
  repeat' split at ha
  all_goals
    simp only [List.mem_cons, List.mem_singleton, List.not_mem_nil, or_false] at ha
  all_goals
    first
      | (rw [ha]; rfl)
      | (rcases ha with h | h <;> rw [h] <;> rfl)
      | (rcases ha with h | h | h <;> rw [h] <;> rfl)

lemma processProfile_actions_ne_nil (cc : Bool) (p : ScriptProfile)
    (last : String) (env : ToolEnv) :
    (processProfile cc p last env).1 ≠ [] := by
  unfold processProfile
  repeat' split
  all_goals simp

lemma mem_processProfiles (cc : Bool) (envs : String → ToolEnv) :
    ∀ (cfg : List ScriptProfile) (cache : String → String) (n : String),
      n ∈ (processProfiles cc envs cfg cache).1.map actionProfile ↔
        n ∈ cfg.map (fun p => p.name) := by
  intro cfg
  induction cfg with
  | nil => intro cache n; simp [processProfiles]
  | cons p rest ih =>
    intro cache n
    rw [processProfiles]
    simp only [List.map_append, List.mem_append, List.map_cons, List.mem_cons]
    constructor
    · rintro (h | h)
      · left
        obtain ⟨a, ha, hae⟩ := List.mem_map.mp h
        rw [← hae]
        exact processProfile_actions_profile cc p _ _ a ha
      · right
        exact (ih _ n).mp h
    · rintro (h | h)
      · left
        obtain ⟨a, ha⟩ :=
          List.exists_mem_of_ne_nil _ (processProfile_actions_ne_nil cc p _ _)
        exact List.mem_map.mpr
          ⟨a, ha, by rw [processProfile_actions_profile cc p _ _ a ha, h]⟩
      · right
        exact (ih _ n).mpr h

/-- C5 counterexample: the multi-profile cron update script
(src/unnamed/part_005) iterates over every profile of its config file
without consulting the `enabled` flag, so an automatic (cron) run over
enabled profiles A, B and a disabled profile C still processes C, even
though the set of enabled profiles is exactly {A, B}. -/
theorem cron_run_includes_disabled_counterexample :
    ((([⟨"A", "vfr", ["AD"], true⟩, ⟨"B", "vfr", ["GEN"], true⟩,
        ⟨"C", "vfr", ["ENR"], false⟩] : List ScriptProfile).filter
          (fun p => p.enabled)).map (fun p => p.name) = ["A", "B"]) ∧
    (⟨"C", "vfr", ["ENR"], false⟩ : ScriptProfile).enabled = false ∧
    "C" ∈ (scriptRun
        [⟨"A", "vfr", ["AD"], true⟩, ⟨"B", "vfr", ["GEN"], true⟩,
          ⟨"C", "vfr", ["ENR"], false⟩]
        "cfg-hash" (fun _ => ⟨"2025-01-01", true, true⟩)
        ⟨fun _ => "", "cfg-hash"⟩).1.map actionProfile := by
  refine ⟨by decide, rfl, ?_⟩
  decide

/-- C5 (amended): in the web backend (modelled from the spec) a trigger
with no profile argument selects exactly the profiles with
enabled=true, and an explicit single-profile trigger selects by name
regardless of the enabled flag; the standalone multi-profile cron
update script, however, processes every profile listed in its config
file regardless of any `enabled` flag, so a disabled profile is
included in that automatic run. -/
theorem trigger_profile_selection :
    (∀ (profiles : List Profile) (p : Profile),
      p ∈ selectProfiles profiles none ↔ p ∈ profiles ∧ p.enabled = true) ∧
    (∀ (profiles : List Profile) (p : Profile) (nm : String),
      p ∈ selectProfiles profiles (some nm) ↔ p ∈ profiles ∧ p.name = nm) ∧
    (∀ (cfg : List ScriptProfile) (hash : String) (envs : String → ToolEnv)
        (st : ScriptState) (n : String),
      n ∈ (scriptRun cfg hash envs st).1.map actionProfile ↔
        n ∈ cfg.map (fun p => p.name)) := by
  refine ⟨?_, ?_, ?_⟩
  · intro profiles p
    simp [selectProfiles, List.mem_filter]
  · intro profiles p nm
    simp [selectProfiles, List.mem_filter]
  · intro cfg hash envs st n
    exact mem_processProfiles _ envs cfg st.cache n

/-- Witness for C5's amended statement at a concrete store and config. -/
theorem trigger_profile_selection_witness :
    ((⟨"A", "vfr", ["AD"], true⟩ : Profile) ∈
        selectProfiles [⟨"A", "vfr", ["AD"], true⟩, ⟨"C", "vfr", ["ENR"], false⟩]
          none ↔
      (⟨"A", "vfr", ["AD"], true⟩ : Profile) ∈
          [⟨"A", "vfr", ["AD"], true⟩, ⟨"C", "vfr", ["ENR"], false⟩] ∧
        (⟨"A", "vfr", ["AD"], true⟩ : Profile).enabled = true) ∧
    ("C" ∈ (scriptRun [⟨"C", "vfr", ["ENR"], false⟩] "h"
        (fun _ => ⟨"2025-01-01", true, true⟩)
        ⟨fun _ => "", "h"⟩).1.map actionProfile ↔
      "C" ∈ ([⟨"C", "vfr", ["ENR"], false⟩] : List ScriptProfile).map
        (fun p => p.name)) :=
  ⟨trigger_profile_selection.1 [⟨"A", "vfr", ["AD"], true⟩,
      ⟨"C", "vfr", ["ENR"], false⟩] ⟨"A", "vfr", ["AD"], true⟩,
    trigger_profile_selection.2.2 [⟨"C", "vfr", ["ENR"], false⟩] "h"
      (fun _ => ⟨"2025-01-01", true, true⟩) ⟨fun _ => "", "h"⟩ "C"⟩

/-! ## C6 -/

lemma getD_messages (o : Option ProfileStatusUI) (n : String) :
    (o.getD (emptyProfileStatus n)).messages =
      (o.map (fun s => s.messages)).getD [] := by
  cases o <;> rfl

lemma clientLog_applyProgress (st : String → Option ProfileStatusUI)
    (e : StageEvent) (n : String) :
    clientLog (applyProgress st e) n =
      if e.profile ≠ "" ∧ e.profile = n
      then clientLog st n ++ [toClientMsg e]
      else clientLog st n := by
  unfold applyProgress clientLog
  by_cases hp : e.profile = ""
  · rw [if_pos hp, if_neg (by simp [hp])]
  · rw [if_neg hp]
    dsimp only
    by_cases hpn : n = e.profile
    · rw [if_pos hpn, if_pos ⟨hp, hpn.symm⟩]
      simp only [Option.map_some', Option.getD_some]
      rw [getD_messages (st e.profile) e.profile, ← hpn]
    · rw [if_neg hpn, if_neg (fun hc => hpn hc.2.symm)]

lemma clientLog_applyProgressList (n : String) (hn : n ≠ "") :
    ∀ (evs : List StageEvent) (st : String → Option ProfileStatusUI),
      clientLog (applyProgressList st evs) n =
        clientLog st n ++
          (evs.filter (fun e => e.profile == n)).map toClientMsg := by
  intro evs
  induction evs with
  | nil => intro st; simp [applyProgressList, clientLog]
  | cons e rest ih =>
    intro st
    have h1 : applyProgressList st (e :: rest) =
        applyProgressList (applyProgress st e) rest := rfl
    rw [h1, ih (applyProgress st e), clientLog_applyProgress, List.filter_cons]
    by_cases hpn : e.profile = n
    · have hb : (e.profile == n) = true := by rw [hpn, beq_self_eq_true]
      rw [hb, if_pos rfl, if_pos ⟨by rw [hpn]; exact hn, hpn⟩]
      simp
    · have hb : (e.profile == n) = false := beq_eq_false_iff_ne.mpr hpn
      rw [hb, if_neg (fun hc => hpn hc.2), if_neg (by simp)]

lemma lookup_finalize (n : String) (r : ProfileOutcome) :
    ∀ ps : List (String × ProfileOutcome), (ps.map Prod.fst).Nodup →
      (n, r) ∈ ps →
      (ps.map (fun pr => (pr.1, profileEvents pr.1 pr.2))).lookup n =
        some (profileEvents n r) := by
  intro ps
  induction ps with
  | nil => intro _ hmem; cases hmem
  | cons q rest ih =>
    intro hnd hmem
    rw [List.map_cons] at hnd ⊢
    rw [List.nodup_cons] at hnd
    rcases List.mem_cons.mp hmem with h | h
    · rw [← h]
      simp [List.lookup]
    · have hq : (n == q.1) = false := by
        apply beq_eq_false_iff_ne.mpr
        intro he
        exact hnd.1 (by rw [← he]; exact List.mem_map.mpr ⟨(n, r), h, rfl⟩)
      rw [List.lookup, hq]
      exact ih hnd.2 h

lemma filter_runProfilesEvents_mem (n : String) (r : ProfileOutcome) :
    ∀ ps : List (String × ProfileOutcome), (ps.map Prod.fst).Nodup →
      (n, r) ∈ ps →
      (runProfilesEvents ps).filter (fun e => e.profile == n) =
        profileEvents n r := by
  intro ps
  induction ps with
  | nil => intro _ hmem; cases hmem
  | cons q rest ih =>
    intro hnd hmem
    rw [List.map_cons, List.nodup_cons] at hnd
    rw [runProfilesEvents, List.filter_append]
    rcases List.mem_cons.mp hmem with h | h
    · rw [← h]
      rw [filter_profileEvents_self n r]
      have hrest : ∀ pr ∈ rest, pr.1 ≠ n := by
        intro pr hpr he
        rw [← h] at hnd
        exact hnd.1 (he ▸ List.mem_map.mpr ⟨pr, hpr, rfl⟩)
      rw [filter_runProfilesEvents_not_mem n rest hrest, List.append_nil]
    · have hq : q.1 ≠ n := by
        intro he
        exact hnd.1 (he ▸ List.mem_map.mpr ⟨(n, r), h, rfl⟩)
      rw [filter_profileEvents_ne q.1 n q.2 hq, List.nil_append]
      exact ih hnd.2 h

/-- C6: the per-profile log is append-only and kept oldest-first: the
client's accumulated `messages` for a profile equal exactly that
profile's stream events in emission order, the stored log in a
finalized RunRecord is that profile's emitted events in emission order,
and the modal's rendering only reverses a copy for display. -/
theorem stage_log_emission_order (n : String) (hn : n ≠ "") :
    (∀ evs : List StageEvent,
      clientLog (applyProgressList emptyClientState evs) n =
        (evs.filter (fun e => e.profile == n)).map toClientMsg) ∧
    (∀ msgs : List ClientMsg, displayLog msgs = msgs.reverse) ∧
    (∀ (id ts : String) (ps : List (String × ProfileOutcome))
        (r : ProfileOutcome),
      (ps.map Prod.fst).Nodup → (n, r) ∈ ps →
        recordLog (finalizeRun id ts ps) n = profileEvents n r ∧
        (runEvents ps).filter (fun e => e.profile == n) =
          profileEvents n r) := by
  refine ⟨?_, fun _ => rfl, ?_⟩
  · intro evs
    rw [clientLog_applyProgressList n hn evs emptyClientState]
    rfl
  · intro id ts ps r hnd hmem
    constructor
    · rw [recordLog, finalizeRun]
      rw [lookup_finalize n r ps hnd hmem]
      rfl
    · rw [runEvents, List.filter_append, filter_runProfilesEvents_mem n r ps hnd hmem]
      have : ([finishedEvent].filter (fun e => e.profile == n)) = [] := by
        simp [finishedEvent, beq_eq_false_iff_ne.mpr (fun h => hn h.symm)]
      rw [this, List.append_nil]

/-- Witness for C6 on a concrete stream and a concrete finalized run. -/
theorem stage_log_emission_order_witness :
    clientLog (applyProgressList emptyClientState
        [⟨"", "A", "init", "m1", .info⟩, ⟨"", "B", "init", "m2", .info⟩,
          ⟨"", "A", "complete", "m3", .success⟩]) "A" =
      ([⟨"", "A", "init", "m1", .info⟩, ⟨"", "B", "init", "m2", .info⟩,
          ⟨"", "A", "complete", "m3", .success⟩].filter
        (fun e => e.profile == "A")).map toClientMsg ∧
    recordLog (finalizeRun "run1" "t" [("A", .ok)]) "A" =
      profileEvents "A" .ok :=
  ⟨(stage_log_emission_order "A" (by decide)).1
      [⟨"", "A", "init", "m1", .info⟩, ⟨"", "B", "init", "m2", .info⟩,
        ⟨"", "A", "complete", "m3", .success⟩],
    ((stage_log_emission_order "A" (by decide)).2.2 "run1" "t" [("A", .ok)]
      .ok (by decide) (by decide)).1⟩

/-! ## C7 -/

/-- C7: creating a profile whose name equals an existing profile's name
fails with `DuplicateName` and leaves the store unchanged (so the
existing profile is unmodified); `name` stays the unique key — a store
with pairwise-distinct names keeps pairwise-distinct names under
create. -/
theorem create_profile_duplicate_name :
    (∀ (store : List Profile) (p : Profile),
      (∃ q ∈ store, q.name = p.name) →
        createProfile store p = (some .DuplicateName, store)) ∧
    (∀ (store : List Profile) (p : Profile),
      (store.map (fun q => q.name)).Nodup →
        ((createProfile store p).2.map (fun q => q.name)).Nodup) := by
  constructor
  · intro store p h
    obtain ⟨q, hq, hname⟩ := h
    have hany : store.any (fun q => q.name == p.name) = true :=
      List.any_eq_true.mpr ⟨q, hq, by simp [hname]⟩
    rw [createProfile, if_pos hany]
  · intro store p hnd
    rw [createProfile]
    split
    · exact hnd
    next hany =>
      rw [Bool.not_eq_true, List.any_eq_false] at hany
      simp only [List.map_append, List.map_cons, List.map_nil]
      rw [List.nodup_append]
      refine ⟨hnd, List.nodup_singleton _, ?_⟩
      intro a ha hb
      rw [List.mem_singleton] at hb
      obtain ⟨q, hq, hqa⟩ := List.mem_map.mp ha
      have := hany q hq
      rw [hqa, hb] at this
      simp at this

/-- Witness for C7: creating "A" over a store already holding an "A"
profile fails with DuplicateName and returns the store unchanged. -/
theorem create_profile_duplicate_name_witness :
    createProfile [⟨"A", "vfr", ["AD"], true⟩] ⟨"A", "ifr", [], true⟩ =
      (some .DuplicateName, [⟨"A", "vfr", ["AD"], true⟩]) :=
  create_profile_duplicate_name.1 [⟨"A", "vfr", ["AD"], true⟩]
    ⟨"A", "ifr", [], true⟩ ⟨⟨"A", "vfr", ["AD"], true⟩, by simp, rfl⟩

/-! ## C8 -/

/-- C8 counterexample, refuting the claimed guarantee of re-attempt:
profile P fails PDF generation in run 1, so its stored last-AIRAC state
is truncated to "", yet in run 2 the fetched current AIRAC date is also
"" (the script does not validate the `toc list` output) and the config
hash is unchanged, so the comparison does not differ and P is skipped,
not re-attempted. -/
theorem failed_profile_reattempt_counterexample :
    (scriptRun [⟨"P", "vfr", ["AD"], true⟩] "h"
        (fun _ => ⟨"2025-01-01", false, true⟩)
        ⟨fun _ => "2024-12-05", "h"⟩).2.cache "P" = "" ∧
    (scriptRun [⟨"P", "vfr", ["AD"], true⟩] "h"
        (fun _ => ⟨"", true, true⟩)
        (scriptRun [⟨"P", "vfr", ["AD"], true⟩] "h"
          (fun _ => ⟨"2025-01-01", false, true⟩)
          ⟨fun _ => "2024-12-05", "h"⟩).2).1 = [.skipped "P"] := by
  constructor
  · decide
  · decide

/-- C8 (amended): whenever a stage of an attempted profile fails (PDF
generation or OCR conversion), the script truncates that profile's
stored last-AIRAC state to "" before moving on; on a later run the
profile is re-attempted provided the fetched current AIRAC date is
non-empty (with an empty fetched date and an unchanged config the
comparison does not differ and the profile is skipped). -/
theorem failure_clears_last_airac :
    (∀ (cc : Bool) (p : ScriptProfile) (last : String) (env : ToolEnv),
      (env.currentAirac ≠ last ∨ cc = true) → p.filters ≠ [] →
      (env.pdfOk = false ∨ env.ocrOk = false) →
        (processProfile cc p last env).2 = "" ∧
        .airacCleared p.name ∈ (processProfile cc p last env).1) ∧
    (∀ (cc : Bool) (p : ScriptProfile) (env : ToolEnv),
      env.currentAirac ≠ "" →
        .skipped p.name ∉ (processProfile cc p "" env).1) := by
  constructor
  · intro cc p last env hcond hfil hfail
    rw [processProfile, if_pos hcond, if_pos hfil]
    rcases hfail with h | h
    · rw [if_pos h]
      exact ⟨rfl, by simp⟩
    · by_cases hpdf : env.pdfOk = false
      · rw [if_pos hpdf]
        exact ⟨rfl, by simp⟩
      · rw [if_neg hpdf, if_pos h]
        exact ⟨rfl, by simp⟩
  · intro cc p env hcur
    rw [processProfile, if_pos (Or.inl hcur)]
    split
    · split
      · simp
      · split
        · simp
        · simp
    · simp

/-- Witness for C8's amended statement: an OCR failure truncates the
state to "", and a profile whose stored state is "" is re-attempted
when the next fetched AIRAC date is non-empty. -/
theorem failure_clears_last_airac_witness :
    ((processProfile false ⟨"P", "vfr", ["AD"], true⟩ "2024-12-05"
        ⟨"2025-01-01", true, false⟩).2 = "" ∧
      .airacCleared "P" ∈ (processProfile false ⟨"P", "vfr", ["AD"], true⟩
        "2024-12-05" ⟨"2025-01-01", true, false⟩).1) ∧
    .skipped "P" ∉ (processProfile false ⟨"P", "vfr", ["AD"], true⟩ ""
      ⟨"2025-01-01", true, true⟩).1 :=
  ⟨failure_clears_last_airac.1 false ⟨"P", "vfr", ["AD"], true⟩ "2024-12-05"
      ⟨"2025-01-01", true, false⟩ (by simp) (by simp) (by simp),
    failure_clears_last_airac.2 false ⟨"P", "vfr", ["AD"], true⟩
      ⟨"2025-01-01", true, true⟩ (by simp)⟩

/-! ## C9 -/

/-- C9 counterexample, refuting the "if and only if": for a profile
with an empty filter list the update condition holds (new AIRAC date),
yet no PDF or OCR output is generated — the script only records the new
AIRAC date. -/
theorem outputs_iff_condition_counterexample :
    (("2025-01-01" : String) ≠ "" ∨ (false : Bool) = true) ∧
    hasPdfWritten (processProfile false ⟨"P", "vfr", [], true⟩ ""
        ⟨"2025-01-01", true, true⟩).1 "P" = false ∧
    hasOcrWritten (processProfile false ⟨"P", "vfr", [], true⟩ ""
        ⟨"2025-01-01", true, true⟩).1 "P" = false := by
  refine ⟨Or.inl (by decide), by decide, by decide⟩

/-- C9 (amended): the script generates a profile's PDF/OCR outputs only
if the fetched current AIRAC date differs from the stored one or the
config hash changed; when additionally the filter list is non-empty and
both tool invocations succeed, exactly the PDF, the OCR PDF and the new
AIRAC date are written; when neither disjunct holds the profile is
skipped with no outputs and its stored date unchanged; and the config
hash is saved after the loop regardless of per-profile failures. -/
theorem update_condition_outputs :
    (∀ (cc : Bool) (p : ScriptProfile) (last : String) (env : ToolEnv),
      (hasPdfWritten (processProfile cc p last env).1 p.name = true ∨
        hasOcrWritten (processProfile cc p last env).1 p.name = true) →
        (env.currentAirac ≠ last ∨ cc = true)) ∧
    (∀ (cc : Bool) (p : ScriptProfile) (last : String) (env : ToolEnv),
      (env.currentAirac ≠ last ∨ cc = true) → p.filters ≠ [] →
      env.pdfOk = true → env.ocrOk = true →
        processProfile cc p last env =
          ([.pdfWritten p.name (pdfOutputFile p.name env.currentAirac),
            .ocrWritten p.name (ocrOutputFile p.name env.currentAirac),
            .airacSaved p.name env.currentAirac], env.currentAirac)) ∧
    (∀ (cc : Bool) (p : ScriptProfile) (last : String) (env : ToolEnv),
      env.currentAirac = last → cc = false →
        processProfile cc p last env = ([.skipped p.name], last)) ∧
    (∀ (cfg : List ScriptProfile) (hash : String) (envs : String → ToolEnv)
        (st : ScriptState),
      (scriptRun cfg hash envs st).2.savedConfigHash = hash) := by
  refine ⟨?_, ?_, ?_, ?_⟩
  · intro cc p last env h
    by_cases hcond : env.currentAirac ≠ last ∨ cc = true
    · exact hcond
    · rw [processProfile, if_neg hcond] at h
      rcases h with h | h <;> simp [hasPdfWritten, hasOcrWritten] at h
  · intro cc p last env hcond hfil hpdf hocr
    rw [processProfile, if_pos hcond, if_pos hfil,
      if_neg (by rw [hpdf]; simp), if_neg (by rw [hocr]; simp)]
  · intro cc p last env hcur hcc
    rw [processProfile, if_neg (by simp [hcur, hcc])]
  · intro cfg hash envs st
    rfl

/-- Witness for C9's amended statement on concrete inputs: a successful
attempt writes exactly PDF, OCR and the new date; an up-to-date profile
is skipped; the config hash is saved. -/
theorem update_condition_outputs_witness :
    processProfile false ⟨"A", "vfr", ["AD"], true⟩ "2024-12-05"
        ⟨"2025-01-01", true, true⟩ =
      ([.pdfWritten "A" (pdfOutputFile "A" "2025-01-01"),
        .ocrWritten "A" (ocrOutputFile "A" "2025-01-01"),
        .airacSaved "A" "2025-01-01"], "2025-01-01") ∧
    processProfile false ⟨"A", "vfr", ["AD"], true⟩ "2025-01-01"
        ⟨"2025-01-01", true, true⟩ = ([.skipped "A"], "2025-01-01") ∧
    (scriptRun [] "new-hash" (fun _ => ⟨"", true, true⟩)
      ⟨fun _ => "", "old-hash"⟩).2.savedConfigHash = "new-hash" :=
  ⟨update_condition_outputs.2.1 false ⟨"A", "vfr", ["AD"], true⟩ "2024-12-05"
      ⟨"2025-01-01", true, true⟩ (by simp) (by simp) rfl rfl,
    update_condition_outputs.2.2.1 false ⟨"A", "vfr", ["AD"], true⟩
      "2025-01-01" ⟨"2025-01-01", true, true⟩ rfl rfl,
    update_condition_outputs.2.2.2 [] "new-hash" (fun _ => ⟨"", true, true⟩)
      ⟨fun _ => "", "old-hash"⟩⟩

/-! ## C10 -/

/-- C10: the documents table renders exactly the documents with
is_ocr=false as rows; an OCR document never gets its own row and is
reachable only through the OCR link of the non-OCR row sharing its
profile and AIRAC date, the link being disabled exactly when no such
OCR document exists. -/
theorem documents_view_rows (docs : List Document) (d : Document) :
    (d ∈ filteredDocuments docs ↔ d ∈ docs ∧ d.is_ocr = false) ∧
    (d.is_ocr = true → d ∉ filteredDocuments docs) ∧
    (ocrButtonDisabled docs d = true ↔
      ∀ doc ∈ docs, ¬(doc.profile = d.profile ∧ doc.airac_date = d.airac_date ∧
        doc.is_ocr = true)) ∧
    (∀ doc, ocrDoc docs d = some doc →
      doc ∈ docs ∧ doc.profile = d.profile ∧ doc.airac_date = d.airac_date ∧
        doc.is_ocr = true ∧ ocrHref docs d = some (getDocumentUrl doc.path)) := by
  have hmem : d ∈ filteredDocuments docs ↔ d ∈ docs ∧ d.is_ocr = false := by
    rw [filteredDocuments, List.mem_filter]
    simp
  refine ⟨hmem, ?_, ?_, ?_⟩
  · intro hocr hrow
    rw [(hmem.mp hrow).2] at hocr
    cases hocr
  · rw [ocrButtonDisabled, Option.isNone_iff_eq_none, ocrDoc, List.find?_eq_none]
    constructor
    · intro h doc hdoc hc
      have := h doc hdoc
      simp [hc.1, hc.2.1, hc.2.2] at this
    · intro h doc hdoc
      simp only [Bool.and_eq_true, beq_iff_eq]
      intro hc
      exact h doc hdoc ⟨hc.1.1, hc.1.2, hc.2⟩
  · intro doc hdoc
    have hmem2 := List.mem_of_find?_eq_some hdoc
    have hpred := List.find?_some hdoc
    simp only [Bool.and_eq_true, beq_iff_eq] at hpred
    exact ⟨hmem2, hpred.1.1, hpred.1.2, hpred.2, by rw [ocrHref, hdoc]; rfl⟩

/-- Witness for C10 on a concrete document list with one PDF and its
OCR variant. -/
theorem documents_view_rows_witness :
    (⟨"A-x_ocr.pdf", "A", "2025-01-01", "A/A-x_ocr.pdf", 12, "t", true⟩ :
        Document) ∈
      [⟨"A-x.pdf", "A", "2025-01-01", "A/A-x.pdf", 10, "t", false⟩,
        ⟨"A-x_ocr.pdf", "A", "2025-01-01", "A/A-x_ocr.pdf", 12, "t", true⟩] ∧
    ("A" : String) = "A" ∧ ("2025-01-01" : String) = "2025-01-01" ∧
    (true : Bool) = true ∧
    ocrHref [⟨"A-x.pdf", "A", "2025-01-01", "A/A-x.pdf", 10, "t", false⟩,
        ⟨"A-x_ocr.pdf", "A", "2025-01-01", "A/A-x_ocr.pdf", 12, "t", true⟩]
      ⟨"A-x.pdf", "A", "2025-01-01", "A/A-x.pdf", 10, "t", false⟩ =
      some (getDocumentUrl "A/A-x_ocr.pdf") :=
  (documents_view_rows
    [⟨"A-x.pdf", "A", "2025-01-01", "A/A-x.pdf", 10, "t", false⟩,
      ⟨"A-x_ocr.pdf", "A", "2025-01-01", "A/A-x_ocr.pdf", 12, "t", true⟩]
    ⟨"A-x.pdf", "A", "2025-01-01", "A/A-x.pdf", 10, "t", false⟩).2.2.2
    ⟨"A-x_ocr.pdf", "A", "2025-01-01", "A/A-x_ocr.pdf", 12, "t", true⟩
    (by decide)

end DfsAip
